import Mathlib

/-!
Shallow embedding of the `aws-json-dataset` repository
(`awsjsondataset`): the JSON record model, record sizing
(`utils.get_record_size_bytes`), dataset validation (`utils.validate_data`),
the service-limit registry and the lookup helpers
(`utils.get_available_services_by_limit`, `validate_service`),
the `JsonDataset.__init__` constructor logic (`models.py`), and the
SQS batching routine `AwsJsonDataset._queue_records_batch` (`models.py`).
-/

namespace AwsJsonDataset

/-- Model of a JSON-representable Python value, as handled by `json.dumps`
for the datasets this library accepts (records are `dict`s whose values are
JSON-representable; floats are not needed by any claim and are omitted). -/
inductive Json where
  | null : Json
  | bool : Bool → Json
  | int : Int → Json
  | str : String → Json
  | arr : List Json → Json
  | obj : List (String × Json) → Json

/-- Python's `isinstance(item, dict)` on our value model. -/
def Json.isObj : Json → Bool
  | .obj _ => true
  | _ => false

/-- Escaping of a single character inside a JSON string literal, as
`json.dumps` does for the characters that occur in this development
(quote, backslash and the common control characters). -/
def escapeChar (c : Char) : String :=
  if c = '"' then "\\\""
  else if c = '\\' then "\\\\"
  else if c = '\n' then "\\n"
  else if c = '\t' then "\\t"
  else if c = '\r' then "\\r"
  else String.singleton c

/-- JSON string literal: quote, escape each character, quote. -/
def dumpsStr (s : String) : String :=
  "\"" ++ String.join (s.data.map escapeChar) ++ "\""

mutual
/-- Model of Python `json.dumps(v)` with its default separators
(`", "` between items, `": "` between a key and its value), producing
the same text Python produces for values in our model. -/
def Json.dumps : Json → String
  | .null => "null"
  | .bool true => "true"
  | .bool false => "false"
  | .int n => toString n
  | .str s => dumpsStr s
  | .arr xs => "[" ++ dumpsArrBody xs ++ "]"
  | .obj kvs => "\x7b" ++ dumpsObjBody kvs ++ "\x7d"

/-- Comma-joined serializations of the elements of a JSON array. -/
def dumpsArrBody : List Json → String
  | [] => ""
  | [x] => Json.dumps x
  | x :: xs => Json.dumps x ++ ", " ++ dumpsArrBody xs

/-- Comma-joined `key: value` serializations of the members of a JSON object. -/
def dumpsObjBody : List (String × Json) → String
  | [] => ""
  | [(k, v)] => dumpsStr k ++ ": " ++ Json.dumps v
  | (k, v) :: kvs => dumpsStr k ++ ": " ++ Json.dumps v ++ ", " ++ dumpsObjBody kvs
end

/-- Model of CPython's `sys.getsizeof` on a compact-ASCII `str`: a fixed
49-byte object header plus one byte per character.  This constant is pinned
by the repository's own test `test_get_record_size_bytes`, which asserts
`get_record_size_bytes({"a": 1}) == 57` (the serialization has 8 characters). -/
def getsizeofStr (s : String) : Nat :=
  49 + s.length

/-- Embedding of `utils.get_record_size_bytes(record)`:
`sys.getsizeof(json.dumps(record))`. -/
def get_record_size_bytes (record : Json) : Nat :=
  getsizeofStr record.dumps

/-- UTF-8 byte length of a string (the size in bytes of the payload actually
transmitted for that text). -/
def utf8Len (s : String) : Nat :=
  (s.data.map Char.utf8Size).sum

/-- True when every character of the string is ASCII. -/
def asciiOnly (s : String) : Bool :=
  s.data.all (fun c => c.toNat < 128)

/-- Per-service byte/count limits (`{max_record_size_bytes,
max_batch_size_bytes, max_batch_count}` in the registry). -/
structure ServiceLimits where
  max_record_size_bytes : Nat
  max_batch_size_bytes : Nat
  max_batch_count : Nat
deriving DecidableEq, Repr

/-- Modelled from the spec: `constants.py` (which defines
`service_size_limits_bytes`) is imported by `utils.py` but is not among the
source files; the registry table is taken from the spec's service-limit
table (queue service 256,000-byte records, pub/sub service 256,000-byte
records, firehose-like stream 1,000,000-byte records / 4,000,000-byte
batches / 500-record batches). -/
def service_size_limits_bytes : List (String × ServiceLimits) :=
  [("sqs", ⟨256000, 256000, 10⟩),
   ("sns", ⟨256000, 256000, 10⟩),
   ("kinesis_firehose", ⟨1000000, 4000000, 500⟩)]

/-- Embedding of `utils.get_available_services_by_limit(max_record_size_bytes)`:
project the registry to per-record limits, pair each service with the test
`max_record_size_bytes < limit`, keep the pairs whose test is true, and
return their names. -/
def get_available_services_by_limit (max_record_size_bytes : Nat) : List String :=
  let service_size_record_limits_bytes :=
    service_size_limits_bytes.map (fun kv => (kv.1, kv.2.max_record_size_bytes))
  let service_status :=
    service_size_record_limits_bytes.map
      (fun kv => (kv.1, decide (max_record_size_bytes < kv.2)))
  (service_status.filter (fun x => x.2 == true)).map (fun x => x.1)

/-- Failure modes of service validation (`ValueError` for an unknown service
name, `ServiceRecordSizeLimitExceeded` for an oversized record). -/
inductive ServiceError where
  | unknownService (service : String)
  | recordSizeLimitExceeded (service : String) (max_record_size_bytes : Nat)
deriving DecidableEq, Repr

/-- Modelled from the spec: `validate_service` exists in `utils.py` only as
commented-out code, so its behaviour is taken from the spec's words — fail
with `UnknownService` if the name is not in the registry; fail with
`RecordTooLarge` if the dataset's largest record exceeds that service's
per-record limit; otherwise return the validated service name. -/
def validate_service (service : String) (max_record_size_bytes : Nat) :
    Except ServiceError String :=
  match (service_size_limits_bytes.find? (fun kv => kv.1 == service)).map (fun kv => kv.2) with
  | none => .error (.unknownService service)
  | some limits =>
      if limits.max_record_size_bytes < max_record_size_bytes then
        .error (.recordSizeLimitExceeded service max_record_size_bytes)
      else
        .ok service

/-- Errors raised by dataset validation and construction:
`InvalidJsonDataset` from `exceptions.py`, and the Python `TypeError`
raised by `len(None)` when neither records nor a path is supplied. -/
inductive DatasetError where
  | invalidJsonDataset
  | typeErrorLenOfNone
deriving DecidableEq, Repr

/-- Embedding of `utils.validate_data(data)`: raise `InvalidJsonDataset`
unless every item is a `dict`, otherwise return the data unchanged. -/
def validate_data (data : List Json) : Except DatasetError (List Json) :=
  if data.all (fun item => item.isObj) then .ok data
  else .error .invalidJsonDataset

/-- Result of a successful `JsonDataset.__init__` (`models.py`): the stored
record list, the stored path, and `num_records`. -/
structure JsonDatasetState where
  data : List Json
  path : Option String
  num_records : Nat

/-- Embedding of `JsonDataset.__init__(data, path)` from `models.py`.
`data?` is the `data` argument (`none` models Python `None`), `path?` the
`path` argument, and `load` models the external file collaborator: it maps
a path to the JSON value `json.load` parses from that file.  The body
mirrors the source: when `not self.data` (i.e. `data` is `None` or the
empty list) and `path is not None`, `self.load(path)` runs — `_read_local`
raises `InvalidJsonDataset` unless the parsed value is a top-level array,
and otherwise replaces `self.data` with that array — and finally
`self.num_records = len(self.data)` (a `TypeError` when `self.data` is
still `None`).  No other validation or error is present in the source. -/
def jsonDataset_init (data? : Option (List Json)) (path? : Option String)
    (load : String → Json) : Except DatasetError JsonDatasetState :=
  let dataFalsy := match data? with
    | none => true
    | some d => d.isEmpty
  match path?, dataFalsy with
  | some p, true =>
      match load p with
      | .arr xs => .ok ⟨xs, some p, xs.length⟩
      | _ => .error .invalidJsonDataset
  | _, _ =>
      match data? with
      | some d => .ok ⟨d, path?, d.length⟩
      | none => .error .typeErrorLenOfNone

/-- Failure modes of `AwsJsonDataset._queue_records_batch` (`models.py`):
the Python `TypeError` from iterating `self._data` when it is `None`
(empty dataset), the `UnboundLocalError` from referencing `entries` in the
final publish when the loop never flushed a batch, and `MissingRecords`
from `exceptions.py`. -/
inductive BatchError where
  | noneNotIterable
  | unboundLocalEntries
  | missingRecords (expected actual : Nat)
deriving DecidableEq, Repr

/-- Loop state of `_queue_records_batch`: the current `batch`, the
`batch_bytes` accumulator, the `counter` of records sent, the `entries`
local variable (`none` while still unassigned), and the list of batches
passed to `send_messages` so far, in call order. -/
structure BatchState (α : Type) where
  batch : List α
  batch_bytes : ℚ
  counter : Nat
  entries : Option (List α)
  sent : List (List α)

/-- One iteration of the `for record in self._data` loop of
`_queue_records_batch`, parameterized by `sz`, the model of
`self._get_record_size_kb` applied to the whole current batch list.
If `batch_bytes < 256 and len(batch) < 10` the record is appended;
otherwise `entries` is built from the current batch and sent, `counter`
grows by the batch's length, and the batch restarts as `[record]`.
Either way `batch_bytes` is then recomputed on the new batch. -/
def batchStep (sz : List α → ℚ) (s : BatchState α) (record : α) : BatchState α :=
  if s.batch_bytes < 256 ∧ s.batch.length < 10 then
    let batch := s.batch ++ [record]
    { s with batch := batch, batch_bytes := sz batch }
  else
    let e := s.batch
    let batch := [record]
    { batch := batch
      batch_bytes := sz batch
      counter := s.counter + e.length
      entries := some e
      sent := s.sent ++ [e] }

/-- The trailing `if len(batch) > 0` block of `_queue_records_batch`:
`send_messages(Entries=entries)` re-sends the `entries` variable (the last
batch *built in the loop*, not the remaining `batch`; an
`UnboundLocalError` when the loop never built one), `counter` grows by the
remaining batch's length, and `MissingRecords(expected, actual)` is raised
when `counter != self.num_records`. -/
def batchFinal (num_records : Nat) (s : BatchState α) :
    Except BatchError (List (List α) × Nat) :=
  if s.batch.length > 0 then
    match s.entries with
    | none => .error .unboundLocalEntries
    | some e =>
        let sent := s.sent ++ [e]
        let counter := s.counter + s.batch.length
        if counter ≠ num_records then
          .error (.missingRecords num_records counter)
        else
          .ok (sent, counter)
  else
    .ok (s.sent, s.counter)

/-- Embedding of `AwsJsonDataset._queue_records_batch` (`models.py`),
parameterized by the batch-size function `sz` (the model of
`self._get_record_size_kb`) and the dataset `data`; `self.num_records` is
`len(self.data)`.  Returns the list of batches handed to
`send_messages`, in call order, together with the final `counter`, or the
error the Python code raises.  The `self._data` iterator is `None` when
`self.data` is empty, so iterating it raises a `TypeError`. -/
def queue_records_batch (sz : List α → ℚ) (data : List α) :
    Except BatchError (List (List α) × Nat) :=
  if data.isEmpty then .error .noneNotIterable
  else
    batchFinal data.length
      (data.foldl (batchStep sz) ⟨[], 0, 0, none, []⟩)

/-- The record `{"a": 1}` used throughout the repository's tests. -/
def sampleRecordA : Json := .obj [("a", .int 1)]

/-- The record `{"b": 2}` used throughout the repository's tests. -/
def sampleRecordB : Json := .obj [("b", .int 2)]

/-- Size function modelling tiny records: every batch of them measures far
below the 256-unit limit, as in the spec's "each record is tiny" scenario. -/
def tinySize {α : Type} : List α → ℚ := fun _ => 0

/-- Size function for records that are their own size-in-KB measure: a
batch measures as the sum of its records' sizes. -/
def sumSize : List Nat → ℚ := fun l => ((l.sum : Nat) : ℚ)

end AwsJsonDataset

deriving instance DecidableEq for Except

namespace AwsJsonDataset

set_option maxRecDepth 8000

lemma utf8Size_one_of_ascii {c : Char} (h : c.toNat < 128) : c.utf8Size = 1 := by
  simp only [Char.utf8Size]
  rw [if_pos]
  change c.val ≤ UInt32.ofNatCore 0x7F _
  rw [UInt32.le_def]
  simp only [Char.toNat] at h
  exact Nat.le_of_lt_succ h

lemma sum_utf8Size_of_ascii :
    ∀ l : List Char, (∀ c ∈ l, c.toNat < 128) → (l.map Char.utf8Size).sum = l.length := by
  intro l hl
  induction l with
  | nil => rfl
  | cons c cs ih =>
      simp only [List.map_cons, List.sum_cons, List.length_cons]
      rw [utf8Size_one_of_ascii (hl c (by simp)),
        ih (fun x hx => hl x (List.mem_cons_of_mem c hx))]
      omega

lemma utf8Len_eq_length {s : String} (h : asciiOnly s = true) : utf8Len s = s.length := by
  unfold asciiOnly at h
  rw [List.all_eq_true] at h
  exact sum_utf8Size_of_ascii s.data (fun c hc => by simpa using h c hc)

/-- C1 — the claim says concatenating the emitted batches, in emission
order, reproduces the input record sequence exactly.  The code violates
this: on a dataset of 11 tiny records the final `if len(batch) > 0` block
re-sends the stale `entries` variable (the entries built for the previous
flush) instead of the remaining batch, so the batches handed to
`send_messages` are records 0–9 twice, record 10 is never sent, and their
concatenation is not the input sequence — yet the run ends without error
because `counter` is tracked from `batch`, not from what was sent. -/
theorem C1_final_flush_resends_stale_entries :
    queue_records_batch tinySize (List.range 11) =
      .ok ([List.range 10, List.range 10], 11) ∧
    ([List.range 10, List.range 10] : List (List Nat)).flatten ≠ List.range 11 := by
  exact ⟨by decide, by decide⟩

/-- C2 — the claim says every emitted batch has at most `max_batch_count`
records and total size at most the batch size limit, a lone oversized
record apart.  The code checks the limits on the batch *before* adding the
next record (`if batch_bytes < 256 and len(batch) < 10`), so on records of
sizes 200, 200 and 1 it admits both 200-unit records into one batch and
flushes that batch with two records totalling 400 > 256: an over-limit
emitted batch that is not a lone oversized record. -/
theorem C2_flushed_batch_exceeds_size_limit :
    queue_records_batch sumSize [200, 200, 1] =
      .ok ([[200, 200], [200, 200]], 3) ∧
    ([200, 200] : List Nat).sum = 400 ∧ 400 > 256 ∧
    ([200, 200] : List Nat).length = 2 := by
  exact ⟨by decide, by decide, by decide, by decide⟩

/-- C3 — the claim says the reconciliation of the emitted total against
`num_records` is always performed once the batching pass completes.  On a
dataset of one tiny record the loop never flushes, so the final
`send_messages(Entries=entries)` references `entries` before any
assignment and the run dies with an `UnboundLocalError` before the
`counter != self.num_records` comparison is ever reached. -/
theorem C3_reconciliation_check_never_reached :
    queue_records_batch tinySize [sampleRecordA] = .error .unboundLocalEntries := by
  rfl

/-- C4 — the claim says 25 tiny records against the count limit of 10
yield exactly three emitted batches of 10, 10 and 5 records.  The code
emits three batches of 10, 10 and 10: the third `send_messages` call
re-sends the stale `entries` of the second batch (records 10–19) instead
of the remaining five records. -/
theorem C4_third_batch_duplicates_second :
    queue_records_batch tinySize (List.range 25) =
      .ok ([(List.range 25).take 10,
            ((List.range 25).drop 10).take 10,
            ((List.range 25).drop 10).take 10], 25) ∧
    ([(List.range 25).take 10,
      ((List.range 25).drop 10).take 10,
      ((List.range 25).drop 10).take 10].map List.length) = [10, 10, 10] ∧
    [10, 10, 10] ≠ [10, 10, 5] := by
  exact ⟨by decide, by decide, by decide⟩

/-- C5 — `get_available_services_by_limit s` returns exactly the names of
registry services whose `max_record_size_bytes` is strictly greater than
`s`: a service whose limit equals `s` is excluded and every service whose
limit exceeds `s` is included. -/
theorem C5_available_services_strictly_above_limit (s : Nat) (name : String) :
    name ∈ get_available_services_by_limit s ↔
      ∃ l : ServiceLimits, (name, l) ∈ service_size_limits_bytes ∧
        s < l.max_record_size_bytes := by
  by_cases h1 : s < 256000 <;> by_cases h2 : s < 1000000
  · simp only [get_available_services_by_limit, service_size_limits_bytes]
    simp [h1, h2]
    constructor
    · rintro (rfl | rfl | rfl)
      · exact ⟨_, Or.inl ⟨rfl, rfl⟩, h1⟩
      · exact ⟨_, Or.inr (Or.inl ⟨rfl, rfl⟩), h1⟩
      · exact ⟨_, Or.inr (Or.inr ⟨rfl, rfl⟩), h2⟩
    · rintro ⟨l, (⟨rfl, rfl⟩ | ⟨rfl, rfl⟩ | ⟨rfl, rfl⟩), _⟩ <;> simp
  · omega
  · simp only [get_available_services_by_limit, service_size_limits_bytes]
    simp [h1, h2]
    constructor
    · rintro rfl
      exact ⟨_, Or.inr (Or.inr ⟨rfl, rfl⟩), h2⟩
    · rintro ⟨l, (⟨rfl, rfl⟩ | ⟨rfl, rfl⟩ | ⟨rfl, rfl⟩), hlt⟩ <;>
        first | rfl | (dsimp only at hlt; omega)
  · simp only [get_available_services_by_limit, service_size_limits_bytes]
    simp [h1, h2]
    rintro l (⟨rfl, rfl⟩ | ⟨rfl, rfl⟩ | ⟨rfl, rfl⟩) <;> dsimp only <;> omega

/-- Witness for C5: at `s = 256000`, the queue service (limit exactly
256000) is excluded and the firehose-like service (limit 1000000) is
included. -/
theorem C5_available_services_strictly_above_limit_witness :
    ("sqs" ∉ get_available_services_by_limit 256000) ∧
    ("kinesis_firehose" ∈ get_available_services_by_limit 256000) := by
  constructor
  · intro hmem
    obtain ⟨l, hl, hlt⟩ :=
      (C5_available_services_strictly_above_limit 256000 "sqs").mp hmem
    simp only [service_size_limits_bytes, List.mem_cons, List.mem_singleton,
      Prod.mk.injEq, List.not_mem_nil, or_false] at hl
    rcases hl with ⟨-, rfl⟩ | ⟨hn, -⟩ | ⟨hn, -⟩
    · exact absurd hlt (by decide)
    · exact absurd hn (by decide)
    · exact absurd hn (by decide)
  · exact (C5_available_services_strictly_above_limit 256000 "kinesis_firehose").mpr
      ⟨⟨1000000, 4000000, 500⟩, by simp [service_size_limits_bytes], by decide⟩

/-- C6 — `validate_service name s` fails with `UnknownService` exactly when
`name` is not a registry key; otherwise fails with `RecordTooLarge` exactly
when `s` exceeds that service's per-record limit; otherwise returns the
service name unchanged. -/
theorem C6_validate_service_trichotomy (name : String) (s : Nat) :
    (validate_service name s = .error (.unknownService name) ↔
      ∀ l : ServiceLimits, (name, l) ∉ service_size_limits_bytes) ∧
    (validate_service name s = .error (.recordSizeLimitExceeded name s) ↔
      ∃ l : ServiceLimits, (name, l) ∈ service_size_limits_bytes ∧
        l.max_record_size_bytes < s) ∧
    (validate_service name s = .ok name ↔
      ∃ l : ServiceLimits, (name, l) ∈ service_size_limits_bytes ∧
        s ≤ l.max_record_size_bytes) := by
  by_cases hsqs : name = "sqs"
  · subst hsqs
    by_cases hs : 256000 < s <;>
      simp [validate_service, service_size_limits_bytes, List.find?, hs] <;> omega
  · by_cases hsns : name = "sns"
    · subst hsns
      by_cases hs : 256000 < s <;>
        simp [validate_service, service_size_limits_bytes, List.find?, hs] <;> omega
    · by_cases hkf : name = "kinesis_firehose"
      · subst hkf
        by_cases hs : 1000000 < s <;>
          simp [validate_service, service_size_limits_bytes, List.find?, hs] <;> omega
      · have e1 : ("sqs" == name) = false := beq_eq_false_iff_ne.mpr (Ne.symm hsqs)
        have e2 : ("sns" == name) = false := beq_eq_false_iff_ne.mpr (Ne.symm hsns)
        have e3 : ("kinesis_firehose" == name) = false :=
          beq_eq_false_iff_ne.mpr (Ne.symm hkf)
        simp [validate_service, service_size_limits_bytes, List.find?, e1, e2, e3,
          hsqs, hsns, hkf]

/-- Witness for C6: `validate_service "sqs" 300000` fails with the
record-size error (the spec's own example), and an unknown service name
fails with the unknown-service error. -/
theorem C6_validate_service_trichotomy_witness :
    validate_service "sqs" 300000 = .error (.recordSizeLimitExceeded "sqs" 300000) ∧
    validate_service "unknown_service" 5 = .error (.unknownService "unknown_service") := by
  constructor
  · exact (C6_validate_service_trichotomy "sqs" 300000).2.1.mpr
      ⟨⟨256000, 256000, 10⟩, by simp [service_size_limits_bytes], by decide⟩
  · exact (C6_validate_service_trichotomy "unknown_service" 5).1.mpr
      (by simp [service_size_limits_bytes])

/-- C7 counterexample — the claim says the size function returns the byte
length of the record's canonical JSON serialization.  On the record
`{"a": 1}` the serialization is the 8-byte string `{"a": 1}`, but
`get_record_size_bytes` returns 57 (as the repository's own test asserts),
because `sys.getsizeof` measures the Python string object, not the payload. -/
theorem C7_size_is_not_serialization_byte_length :
    get_record_size_bytes sampleRecordA = 57 ∧
    utf8Len (Json.dumps sampleRecordA) = 8 ∧
    get_record_size_bytes sampleRecordA ≠ utf8Len (Json.dumps sampleRecordA) := by
  exact ⟨by decide, by decide, by decide⟩

/-- C7 amended — for every record whose serialization is ASCII (as in all
the repository's tests), `get_record_size_bytes` returns a fixed 49-byte
Python string-object overhead *plus* the byte length of the record's JSON
serialization; the serialization measured is the same one used for
transmission, but the returned number exceeds the payload size by the
constant object overhead. -/
theorem C7_size_is_offset_serialization_byte_length (r : Json)
    (h : asciiOnly r.dumps = true) :
    get_record_size_bytes r = 49 + utf8Len r.dumps := by
  unfold get_record_size_bytes getsizeofStr
  rw [utf8Len_eq_length h]

/-- Witness for C7 amended: applied to the record `{"a": 1}`,
whose serialization is ASCII, giving 57 = 49 + 8. -/
theorem C7_size_is_offset_serialization_byte_length_witness :
    get_record_size_bytes sampleRecordA = 49 + utf8Len sampleRecordA.dumps := by
  exact C7_size_is_offset_serialization_byte_length sampleRecordA (by decide)

/-- C8 — the claim says supplying both `records` and `path` fails with a
fatal usage error.  The constructor in `models.py` raises nothing: with
both supplied it keeps `data` (the `not self.data` guard is false, so the
path is never loaded), stores the path, and returns normally — silently
preferring `data`, although the repository's own tests expect a
`TypeError` here. -/
theorem C8_both_data_and_path_accepted :
    jsonDataset_init (some [sampleRecordA, sampleRecordB])
        (some "subtechniques.json") (fun _ => .null) =
      .ok ⟨[sampleRecordA, sampleRecordB], some "subtechniques.json", 2⟩ := by
  rfl

/-- C9 — the claim says construction from a sequence with a non-object
element fails with `InvalidDataset`.  `utils.validate_data` does reject
`[{"a":1}, {"b":2}, 3]`, but `JsonDataset.__init__` in `models.py` never
calls it: construction succeeds with `num_records = 3`, although the
repository's own tests expect `InvalidJsonDataset` from the constructor. -/
theorem C9_constructor_skips_item_validation :
    validate_data [sampleRecordA, sampleRecordB, .int 3] =
      .error .invalidJsonDataset ∧
    jsonDataset_init (some [sampleRecordA, sampleRecordB, .int 3]) none
        (fun _ => .null) =
      .ok ⟨[sampleRecordA, sampleRecordB, .int 3], none, 3⟩ := by
  exact ⟨rfl, rfl⟩

/-- C10 — supplying an explicitly empty `records` list together with a
`path` behaves exactly like supplying no records at all: the empty list is
falsy, so the constructor invokes the file-load collaborator and the
dataset holds the file's records (no usage error, and the caller's empty
list is not preserved). -/
theorem C10_empty_records_with_path_loads_file (load : String → Json)
    (p : String) (d : List Json) (h : load p = .arr d) :
    jsonDataset_init (some []) (some p) load = jsonDataset_init none (some p) load ∧
    jsonDataset_init (some []) (some p) load = .ok ⟨d, some p, d.length⟩ := by
  constructor
  · rfl
  · simp [jsonDataset_init, h]

/-- Witness for C10: a load collaborator whose file parses to the
one-record array `[{"a": 1}]`. -/
theorem C10_empty_records_with_path_loads_file_witness :
    jsonDataset_init (some []) (some "data.json") (fun _ => .arr [sampleRecordA]) =
      jsonDataset_init none (some "data.json") (fun _ => .arr [sampleRecordA]) ∧
    jsonDataset_init (some []) (some "data.json") (fun _ => .arr [sampleRecordA]) =
      .ok ⟨[sampleRecordA], some "data.json", 1⟩ := by
  exact C10_empty_records_with_path_loads_file (fun _ => .arr [sampleRecordA])
    "data.json" [sampleRecordA] rfl

end AwsJsonDataset
